import Mathlib

/-!
# Verification of the allfence ranking & points engine

Shallow embedding of the ranking/points core of the `allfence` repository:
the tournament points table (`backend/src/tournament_points.py`), the
age-bracket classifier (`backend/src/ranking.py`), the bulk ranking
recomputation script (`backend/scripts/recalculate_rankings.py`), the
tournament result recorder (`src/tournament_management.py`), the
eligibility filter (`Tournament.is_eligible_fencer` in
`backend/src/models.py`) and the season simulator's registration sampling
(`backend/src/season_simulation.py`).

Python integers are embedded as `Int`/`Nat`.  The competition-type
multipliers in the source are the floats 0.5, 1.0, 1.5, 2.0, 2.5 — every
one an exact half-integer, and every product `base_points * multiplier`
is exactly representable in binary floating point, so the float
arithmetic of the source agrees exactly with rational arithmetic.  We
embed each multiplier as twice its value (an integer) and divide by two
inside the rounding step; Python's `round` (banker's rounding: round half
to even) on a half-integer `n/2` is embedded as `pyRoundHalf n`.  The
simulator's participation rates are embedded as `ℚ`.  Functions that can
raise are embedded with `Except String`.
-/

deriving instance DecidableEq for Except

namespace Allfence

/-! ## Points table (`backend/src/tournament_points.py`) -/

/-- `BASE_POINTS_BY_PLACEMENT` dict from `tournament_points.py`,
embedded as an association list in the source's key order. -/
def BASE_POINTS_BY_PLACEMENT : List (Int × Int) :=
  [(1, 100), (2, 75), (3, 50), (4, 30),
   (5, 20), (6, 20), (7, 20), (8, 20),
   (9, 10), (10, 10), (11, 10), (12, 10),
   (13, 10), (14, 10), (15, 10), (16, 10),
   (17, 5), (32, 5)]

/-- `COMPETITION_TYPE_MULTIPLIERS` dict from `tournament_points.py`.
Each float multiplier is stored exactly as twice its value:
Local 0.5 → 1, Regional 1.0 → 2, National 1.5 → 3, Championship 2.0 → 4,
International 2.5 → 5. -/
def COMPETITION_TYPE_MULTIPLIERS : List (String × Int) :=
  [("Local", 1), ("Regional", 2), ("National", 3),
   ("Championship", 4), ("International", 5)]

/-- `get_base_points` from `tournament_points.py`: dict lookup, then the
`placement > 32` branch, then the `17 <= placement <= 32` branch, then the
`return 0` default. -/
def get_base_points (placement : Int) : Int :=
  match BASE_POINTS_BY_PLACEMENT.lookup placement with
  | some v => v
  | none =>
    if placement > 32 then 0
    else if 17 ≤ placement ∧ placement ≤ 32 then 5
    else 0

/-- `get_competition_multiplier` from `tournament_points.py` (times two):
raises `ValueError` on an unknown competition type. -/
def get_competition_multiplier (competition_type : String) : Except String Int :=
  match COMPETITION_TYPE_MULTIPLIERS.lookup competition_type with
  | none => .error ("Unknown competition type: " ++ competition_type)
  | some m => .ok m

/-- Python's `round (n / 2)` for an integer `n`: round to nearest, ties to
even (banker's rounding), which is what `round` does on (exact) floats. -/
def pyRoundHalf (n : Int) : Int :=
  if n % 2 = 0 then n / 2
  else if (n / 2) % 2 = 0 then n / 2 else n / 2 + 1

/-- `calculate_points` from `tournament_points.py`:
`int(round(base_points * multiplier))`, with the multiplier carried as
twice its value. -/
def calculate_points (placement : Int) (competition_type : String) :
    Except String Int :=
  match get_competition_multiplier competition_type with
  | .error e => .error e
  | .ok multiplier2 => .ok (pyRoundHalf (get_base_points placement * multiplier2))

/-- The five known competition tiers. -/
def KNOWN_TIERS : List String :=
  ["Local", "Regional", "National", "Championship", "International"]

/-- The base-points-by-placement schedule exactly as the spec words it:
1st=100, 2nd=75, 3rd=50, 4th=30, 5th–8th=20, 9th–16th=10, 17th–32nd=5,
beyond 32nd=0. Spec-shaped counterpart of `get_base_points`. -/
def specBasePoints (p : Int) : Int :=
  if p = 1 then 100
  else if p = 2 then 75
  else if p = 3 then 50
  else if p = 4 then 30
  else if 5 ≤ p ∧ p ≤ 8 then 20
  else if 9 ≤ p ∧ p ≤ 16 then 10
  else if 17 ≤ p ∧ p ≤ 32 then 5
  else 0

/-- The tier multiplier table exactly as the spec words it (times two):
Local=0.5, Regional=1.0, National=1.5, Championship=2.0,
International=2.5. -/
def specMultiplier2 (t : String) : Int :=
  if t = "Local" then 1
  else if t = "Regional" then 2
  else if t = "National" then 3
  else if t = "Championship" then 4
  else 5

lemma get_base_points_eq_spec (p : Int) (hp : 1 ≤ p) :
    get_base_points p = specBasePoints p := by
  rcases le_or_lt p 32 with h32 | h32
  · interval_cases p <;> decide
  · have hlk : BASE_POINTS_BY_PLACEMENT.lookup p = none := by
      simp only [BASE_POINTS_BY_PLACEMENT, List.lookup]
      repeat' split
      all_goals first
        | rfl
        | (rename_i hk ; rw [beq_iff_eq] at hk ; omega)
    simp only [get_base_points, hlk, specBasePoints]
    split_ifs <;> omega

lemma get_base_points_nonpos (p : Int) (hp : p ≤ 0) :
    get_base_points p = 0 := by
  have hlk : BASE_POINTS_BY_PLACEMENT.lookup p = none := by
    simp only [BASE_POINTS_BY_PLACEMENT, List.lookup]
    repeat' split
    all_goals first
      | rfl
      | (rename_i hk ; rw [beq_iff_eq] at hk ; omega)
  simp only [get_base_points, hlk]
  split_ifs <;> omega

lemma get_competition_multiplier_known (t : String) (ht : t ∈ KNOWN_TIERS) :
    get_competition_multiplier t = .ok (specMultiplier2 t) := by
  simp only [KNOWN_TIERS, List.mem_cons, List.not_mem_nil, or_false] at ht
  rcases ht with h | h | h | h | h <;> subst h <;>
    simp [get_competition_multiplier, COMPETITION_TYPE_MULTIPLIERS,
      List.lookup, specMultiplier2]

lemma calculate_points_known (p : Int) (t : String) (ht : t ∈ KNOWN_TIERS) :
    calculate_points p t =
      .ok (pyRoundHalf (get_base_points p * specMultiplier2 t)) := by
  simp only [calculate_points, get_competition_multiplier_known t ht]

lemma pyRoundHalf_mono {a b : Int} (h : a ≤ b) :
    pyRoundHalf a ≤ pyRoundHalf b := by
  unfold pyRoundHalf
  split_ifs <;> omega

set_option maxHeartbeats 1600000 in
lemma specBasePoints_antitone {p q : Int} (hp : 1 ≤ p) (hpq : p ≤ q) :
    specBasePoints q ≤ specBasePoints p := by
  unfold specBasePoints
  split_ifs <;> omega

lemma specMultiplier2_nonneg (t : String) : 0 ≤ specMultiplier2 t := by
  unfold specMultiplier2
  split_ifs <;> norm_num

/-- **C6.** For every placement `p ≥ 1` and every known tier, the points
awarded are `round(base(p) × multiplier(t))` (ties to even, as Python's
`round`), where `base` is the spec's schedule 100/75/50/30, 20 for 5–8,
10 for 9–16, 5 for 17–32, 0 beyond 32, and the multiplier is Local=0.5,
Regional=1.0, National=1.5, Championship=2.0, International=2.5; in
particular `points_for(1,"Regional")=100`,
`points_for(1,"Championship")=200`, `points_for(1,"Local")=50`,
`points_for(5,"Regional")=20` and `points_for(33,"Regional")=0`. -/
theorem calculate_points_matches_spec_schedule :
    (∀ p : Int, 1 ≤ p → ∀ t ∈ KNOWN_TIERS,
      calculate_points p t = .ok (pyRoundHalf (specBasePoints p * specMultiplier2 t)))
    ∧ calculate_points 1 "Regional" = .ok 100
    ∧ calculate_points 1 "Championship" = .ok 200
    ∧ calculate_points 1 "Local" = .ok 50
    ∧ calculate_points 5 "Regional" = .ok 20
    ∧ calculate_points 33 "Regional" = .ok 0 := by
  refine ⟨?_, by decide, by decide, by decide, by decide, by decide⟩
  intro p hp t ht
  rw [calculate_points_known p t ht, get_base_points_eq_spec p hp]

/-- Witness for C6: the schedule equation instantiated at placement 3 on a
Championship tournament, where it evaluates to 100 points. -/
theorem calculate_points_matches_spec_schedule_witness :
    calculate_points 3 "Championship" =
      .ok (pyRoundHalf (specBasePoints 3 * specMultiplier2 "Championship")) :=
  calculate_points_matches_spec_schedule.1 3 (by norm_num) "Championship" (by decide)

/-- **C7, counterexample.** The claim says `points_for` must fail the
caller for every placement ≤ 0; instead the code's `get_base_points`
falls through to its `return 0` default, so `calculate_points` returns
0 points for placement 0 (and for any negative placement) on a known
tier, raising nothing. -/
theorem calculate_points_nonpos_counterexample :
    calculate_points 0 "Regional" = .ok 0 ∧
    calculate_points (-3) "Regional" = .ok 0 ∧
    ∀ e, calculate_points 0 "Regional" ≠ .error e := by
  refine ⟨by decide, by decide, ?_⟩
  intro e h
  simp [calculate_points, get_competition_multiplier,
    COMPETITION_TYPE_MULTIPLIERS, List.lookup] at h

/-- **C7, amended.** For every placement ≤ 0 and every known tier,
`calculate_points` silently returns 0 points (the `return 0` default of
`get_base_points`); it raises only for an unknown tier, never for a
non-positive placement. -/
theorem calculate_points_nonpos_returns_zero (p : Int) (hp : p ≤ 0)
    (t : String) (ht : t ∈ KNOWN_TIERS) :
    calculate_points p t = .ok 0 := by
  rw [calculate_points_known p t ht, get_base_points_nonpos p hp]
  simp [pyRoundHalf]

/-- Witness for the amended C7: placement 0 on a Regional tournament is
awarded 0 points without an exception. -/
theorem calculate_points_nonpos_returns_zero_witness :
    calculate_points 0 "Regional" = .ok 0 :=
  calculate_points_nonpos_returns_zero 0 (by norm_num) "Regional" (by decide)

/-- **C10.** For placements `1 ≤ p ≤ q` and a fixed known tier, a better
(numerically smaller) placement never earns fewer points: the base
schedule is non-increasing and the non-negative multiplier and the
monotone rounding preserve that. -/
theorem calculate_points_antitone (p q : Int) (hp : 1 ≤ p) (hpq : p ≤ q)
    (t : String) (ht : t ∈ KNOWN_TIERS) :
    ∃ a b : Int, calculate_points p t = .ok a ∧ calculate_points q t = .ok b ∧
      b ≤ a := by
  refine ⟨_, _, calculate_points_known p t ht, calculate_points_known q t ht, ?_⟩
  apply pyRoundHalf_mono
  rw [get_base_points_eq_spec p hp, get_base_points_eq_spec q (le_trans hp hpq)]
  exact mul_le_mul_of_nonneg_right (specBasePoints_antitone hp hpq)
    (specMultiplier2_nonneg t)

/-- Witness for C10: placements 2 and 10 on a Regional tournament earn 75
and 10 points respectively, and 10 ≤ 75. -/
theorem calculate_points_antitone_witness :
    ∃ a b : Int, calculate_points 2 "Regional" = .ok a ∧
      calculate_points 10 "Regional" = .ok b ∧ b ≤ a :=
  calculate_points_antitone 2 10 (by norm_num) (by norm_num) "Regional" (by decide)

/-! ## Age-bracket classifier (`backend/src/ranking.py`) -/

/-- `AGE_BRACKETS` from `backend/src/ranking.py`:
`(bracket_name, min_age, max_age)`, all bounds inclusive.  Note the
`Senior` row is capped at max_age 99 in the source. -/
def AGE_BRACKETS : List (String × Int × Int) :=
  [("U11", 0, 10), ("U13", 11, 12), ("U15", 13, 14),
   ("Cadet", 15, 16), ("Junior", 17, 19), ("Senior", 20, 99)]

/-- The loop of `eligible_brackets`: append the first bracket whose range
contains the age, then `break`. -/
def bracketScan (age : Int) : List (String × Int × Int) → List String
  | [] => []
  | (name, lo, hi) :: rest =>
    if lo ≤ age ∧ age ≤ hi then [name] else bracketScan age rest

/-- `eligible_brackets` from `backend/src/ranking.py`: the (first) bracket
whose inclusive range contains the age, as a singleton list, or `[]`
when no range matches. -/
def eligible_brackets (age : Int) : List String :=
  bracketScan age AGE_BRACKETS

/-- A Python `date`, as its (year, month, day) triple. -/
structure PyDate where
  year : Int
  month : Int
  day : Int
deriving DecidableEq

/-- `calculate_age` from `backend/src/ranking.py`: year difference,
decremented by one when `(today.month, today.day) < (dob.month, dob.day)`
(Python's lexicographic tuple comparison, written out). -/
def calculate_age (dob today : PyDate) : Int :=
  if today.month < dob.month ∨ (today.month = dob.month ∧ today.day < dob.day)
  then today.year - dob.year - 1
  else today.year - dob.year

/-- The six bracket names. -/
def BRACKET_NAMES : List String :=
  ["U11", "U13", "U15", "Cadet", "Junior", "Senior"]

/-- The claim's classifier, worded as in the spec: U11 for 0–10, U13 for
11–12, U15 for 13–14, Cadet for 15–16, Junior for 17–19, Senior for
everything above. -/
def specBracketFor (age : Int) : String :=
  if age ≤ 10 then "U11"
  else if age ≤ 12 then "U13"
  else if age ≤ 14 then "U15"
  else if age ≤ 16 then "Cadet"
  else if age ≤ 19 then "Junior"
  else "Senior"

/-- **C5, counterexample.** The claim says every age from 0 to 130 maps
to exactly one of the six bracket names, with Senior covering every age
of 20 or more; but the source's `Senior` row stops at 99, so age 100
(and every age up to 130) maps to no bracket at all. -/
theorem eligible_brackets_counterexample :
    eligible_brackets 100 = [] ∧
    ∀ b ∈ BRACKET_NAMES, eligible_brackets 100 ≠ [b] := by
  decide

/-- **C5, amended.** For every age from 0 to 99 the classifier returns
exactly one of the six bracket names — with the particular values the
claim lists, and Senior covering ages 20–99 — while ages of 100 or more
(such as 100–130) fall outside every bracket and yield no bracket name. -/
theorem eligible_brackets_partition (age : Int) (h0 : 0 ≤ age) :
    (age ≤ 99 →
      eligible_brackets age = [specBracketFor age] ∧
      specBracketFor age ∈ BRACKET_NAMES) ∧
    (100 ≤ age → eligible_brackets age = []) ∧
    eligible_brackets 10 = ["U11"] ∧ eligible_brackets 11 = ["U13"] ∧
    eligible_brackets 14 = ["U15"] ∧ eligible_brackets 16 = ["Cadet"] ∧
    eligible_brackets 19 = ["Junior"] ∧ eligible_brackets 20 = ["Senior"] ∧
    (20 ≤ age → age ≤ 99 → eligible_brackets age = ["Senior"]) := by
  refine ⟨?_, ?_, by decide, by decide, by decide, by decide, by decide,
    by decide, ?_⟩
  · intro h99
    simp only [eligible_brackets, AGE_BRACKETS, bracketScan, specBracketFor,
      BRACKET_NAMES]
    split_ifs <;> first | (exfalso ; omega) | simp
  · intro h100
    simp only [eligible_brackets, AGE_BRACKETS, bracketScan]
    split_ifs <;> first | (exfalso ; omega) | rfl
  · intro h20 h99
    simp only [eligible_brackets, AGE_BRACKETS, bracketScan]
    split_ifs <;> first | (exfalso ; omega) | rfl

/-- Witness for the amended C5: age 25 classifies to the single bracket
Senior, and age 105 to none. -/
theorem eligible_brackets_partition_witness :
    (eligible_brackets 25 = [specBracketFor 25] ∧
      specBracketFor 25 ∈ BRACKET_NAMES) ∧
    eligible_brackets 105 = [] := by
  refine ⟨(eligible_brackets_partition 25 (by norm_num)).1 (by norm_num), ?_⟩
  exact (eligible_brackets_partition 105 (by norm_num)).2.1 (by norm_num)

/-! ## Data model (`backend/src/models.py`)

Rows of the four tables the ranking core touches, with the columns the
claims need.  Each table is a list of rows; relationship collections
(`fencer.rankings`, `tournament.results`) are the rows of the related
table filtered by the foreign key, in table order. -/

/-- A row of `fencers`. -/
structure Fencer where
  fencer_id : Nat
  weapon : String
  gender : String
  dob : PyDate
deriving DecidableEq

/-- A row of `rankings`: one per (fencer, bracket). -/
structure Ranking where
  fencer_id : Nat
  bracket_name : String
  points : Int
  tournaments_attended : Int
deriving DecidableEq

/-- A row of `tournaments`. -/
structure Tournament where
  tournament_id : Nat
  bracket : String
  weapon : String
  gender : Option String
  competition_type : String
  status : String
  max_participants : Option Nat
  date : PyDate
deriving DecidableEq

/-- A row of `tournament_results`. -/
structure TournamentResult where
  tournament_id : Nat
  fencer_id : Nat
  placement : Int
  points_awarded : Int
deriving DecidableEq

/-- The database state seen by one session. -/
structure DBState where
  fencers : List Fencer
  tournaments : List Tournament
  results : List TournamentResult
  rankings : List Ranking
deriving DecidableEq

/-- Replace the first row satisfying `p` by `f` of it (how a mutation of
one ORM row object changes the table). -/
def updateFirst (p : α → Bool) (f : α → α) : List α → List α
  | [] => []
  | x :: xs => if p x then f x :: xs else x :: updateFirst p f xs

/-! ## Bulk ranking recomputation
(`backend/scripts/recalculate_rankings.py`) -/

/-- The aggregation query of `recalculate_rankings`: all
`TournamentResult` rows with `fencer_id == ranking.fencer_id`, inner
joined with `Fencer` on `fencer_id` (so the fencer row must exist;
`fencer_id` is unique, being the fencers table's primary key).  There is
no condition on the parent tournament's bracket and none on the sign of
`points_awarded`. -/
def resultsOfFencer (s : DBState) (fid : Nat) : List TournamentResult :=
  s.results.filter (fun tr =>
    tr.fencer_id == fid && s.fencers.any (fun f => f.fencer_id == tr.fencer_id))

/-- The body of the `for ranking in rankings` loop of
`recalculate_rankings`: compute `actual_tournaments`/`actual_points`
(SQL `COUNT`/`SUM`, with `or 0` turning an empty-sum NULL into 0) and
overwrite the row's fields when they mismatch. -/
def recalcOne (s : DBState) (r : Ranking) : Ranking :=
  if r.points ≠ ((resultsOfFencer s r.fencer_id).map (·.points_awarded)).sum
      ∨ r.tournaments_attended ≠ ((resultsOfFencer s r.fencer_id).length : Int)
  then { r with
    points := ((resultsOfFencer s r.fencer_id).map (·.points_awarded)).sum,
    tournaments_attended := ((resultsOfFencer s r.fencer_id).length : Int) }
  else r

/-- `recalculate_rankings` from
`backend/scripts/recalculate_rankings.py`: run the loop body over every
`Ranking` row and commit. -/
def recalculate_rankings (s : DBState) : DBState :=
  { s with rankings := s.rankings.map (recalcOne s) }

/-- The result rows the claim C1 says the recomputation sums: those of
the fencer whose parent tournament's bracket equals the ranking's
bracket and whose `points_awarded` is positive. -/
def claimQualifyingResults (s : DBState) (fid : Nat) (bracket : String) :
    List TournamentResult :=
  s.results.filter (fun tr =>
    tr.fencer_id == fid &&
    (match s.tournaments.find? (fun t => t.tournament_id == tr.tournament_id) with
     | some t => t.bracket == bracket
     | none => false) &&
    decide (0 < tr.points_awarded))

/-- One fencer (id 1) holding a `Senior` ranking, with one 100-point
result on a `Junior`-bracket tournament. -/
def sC1 : DBState :=
  { fencers := [⟨1, "Epee", "M", ⟨2000, 1, 1⟩⟩],
    tournaments := [⟨1, "Junior", "Epee", none, "Regional", "Completed",
      none, ⟨2025, 1, 1⟩⟩],
    results := [⟨1, 1, 1, 100⟩],
    rankings := [⟨1, "Senior", 0, 0⟩] }

/-- **C1, counterexample.** The claim says the recomputation sums only
the fencer's results whose parent tournament's bracket matches the
ranking's bracket and whose points are positive.  On `sC1` the only
result sits on a `Junior` tournament while the ranking is `Senior`, so
the claim demands points = 0 and attendance = 0; the script, whose query
has no bracket condition, sets points = 100 and attendance = 1. -/
theorem recalculate_rankings_claim_counterexample :
    (recalculate_rankings sC1).rankings = [⟨1, "Senior", 100, 1⟩] ∧
    ((claimQualifyingResults sC1 1 "Senior").map (·.points_awarded)).sum = 0 ∧
    ¬ (∀ r ∈ (recalculate_rankings sC1).rankings,
        r.points =
          ((claimQualifyingResults sC1 r.fencer_id r.bracket_name).map
            (·.points_awarded)).sum ∧
        r.tournaments_attended =
          ((claimQualifyingResults sC1 r.fencer_id r.bracket_name).length : Int)) := by
  refine ⟨by decide, by decide, ?_⟩
  intro h
  have := h ⟨1, "Senior", 100, 1⟩ (by decide)
  revert this
  decide

/-- **C1, amended.** For every fencer, the bulk recomputation sets each
Ranking row the fencer has to points = the sum of `points_awarded` over
ALL TournamentResult rows of that fencer (joined against an existing
Fencer row) — with no condition on the parent tournament's bracket and
none on the sign of `points_awarded` — and sets `tournaments_attended`
to the count of all those rows. -/
theorem recalculate_rankings_sums_all_results (s : DBState) :
    (recalculate_rankings s).rankings = s.rankings.map (fun r =>
      { r with
        points := ((resultsOfFencer s r.fencer_id).map (·.points_awarded)).sum,
        tournaments_attended := ((resultsOfFencer s r.fencer_id).length : Int) }) := by
  unfold recalculate_rankings
  apply List.map_congr_left
  intro r hr
  unfold recalcOne
  split_ifs with h
  · rfl
  · push_neg at h
    cases r
    simp only [Ranking.mk.injEq, true_and]
    exact ⟨h.1, h.2⟩

/-- **C2.** Running the bulk recomputation twice in a row, with no
intervening changes to the result rows, yields exactly the same database
state as running it once: the operation is idempotent. -/
theorem recalculate_rankings_idempotent (s : DBState) :
    recalculate_rankings (recalculate_rankings s) = recalculate_rankings s := by
  cases s with
  | mk fencers tournaments results rankings =>
    simp only [recalculate_rankings, List.map_map, DBState.mk.injEq,
      true_and]
    apply List.map_congr_left
    intro r hr
    simp only [Function.comp_apply]
    unfold recalcOne resultsOfFencer
    split_ifs <;> simp_all

/-! ## Tournament result recorder (`src/tournament_management.py`)

`_record_results_impl`, embedded as a transition on `DBState`.  A
validation failure returns `(False, message)` with the state untouched;
an exception raised inside the transaction (unknown competition type in
`calculate_points`) is an `Except.error` — the session context rolls the
transaction back, so no state accompanies it. -/

/-- The `registered_results` query: all result rows of the tournament. -/
def registeredResultsOf (s : DBState) (tid : Nat) : List TournamentResult :=
  s.results.filter (fun r => r.tournament_id == tid)

/-- `registered_fencer_ids` — a Python set, embedded as the id list
deduplicated in first-occurrence order. -/
def registeredIdsOf (s : DBState) (tid : Nat) : List Nat :=
  ((registeredResultsOf s tid).map (·.fencer_id)).eraseDups

/-- `provided_fencer_ids` — the keys of the placements dict, as a set. -/
def providedIdsOf (results_dict : List (Nat × Int)) : List Nat :=
  (results_dict.map (·.1)).eraseDups

/-- Python's `set(a) == set(b)` on id collections. -/
def sameIdSet (a b : List Nat) : Bool :=
  a.all (fun x => b.contains x) && b.all (fun x => a.contains x)

/-- `missing = registered_fencer_ids - provided_fencer_ids`. -/
def missingIds (s : DBState) (tid : Nat) (results_dict : List (Nat × Int)) :
    List Nat :=
  (registeredIdsOf s tid).filter (fun i => ! (providedIdsOf results_dict).contains i)

/-- `extra = provided_fencer_ids - registered_fencer_ids`. -/
def extraIds (s : DBState) (tid : Nat) (results_dict : List (Nat × Int)) :
    List Nat :=
  (providedIdsOf results_dict).filter (fun i => ! (registeredIdsOf s tid).contains i)

/-- The registrant-mismatch message of `_record_results_impl`, naming the
specific missing and extra fencer ids (the Python f-string formats the
two sets; we format the corresponding id lists). -/
def mismatchMsg (missing extra : List Nat) : String :=
  (if missing.isEmpty then "" else
    "Missing results for fencers: " ++ toString missing ++ ". ") ++
  (if extra.isEmpty then "" else
    "Extra fencers not registered: " ++ toString extra ++ ".")

/-- The `for fencer_id, placement in results_dict.items()` loop of
`_record_results_impl`: look the fencer's row up in the
`registered_results` snapshot (`continue` when absent), compute the
points, overwrite the result row, then add the points to
`fencer.rankings[0]` — the fencer's first Ranking row in table order —
when the fencer exists and has any ranking (`Ranking.update_ranking`
only does `self.points += points`). -/
def recordLoop (ct : String) (tid : Nat) (registered : List TournamentResult) :
    List (Nat × Int) → DBState → Except String DBState
  | [], s => .ok s
  | (fid, placement) :: rest, s =>
    match registered.find? (fun r => r.fencer_id == fid) with
    | none => recordLoop ct tid registered rest s
    | some _ =>
      match calculate_points placement ct with
      | .error e => .error e
      | .ok points =>
        let s1 : DBState := { s with
          results := updateFirst
            (fun r => r.tournament_id == tid && r.fencer_id == fid)
            (fun r => { r with placement := placement, points_awarded := points })
            s.results }
        let s2 : DBState :=
          match s1.fencers.find? (fun f => f.fencer_id == fid) with
          | none => s1
          | some _ =>
            if (s1.rankings.filter (fun r => r.fencer_id == fid)).isEmpty then s1
            else { s1 with
              rankings := updateFirst (fun r => r.fencer_id == fid)
                (fun r => { r with points := r.points + points }) s1.rankings }
        recordLoop ct tid registered rest s2

/-- `_record_results_impl` from `src/tournament_management.py`. -/
def record_tournament_results (tid : Nat) (results_dict : List (Nat × Int))
    (s : DBState) : Except String ((Bool × String) × DBState) :=
  match s.tournaments.find? (fun t => t.tournament_id == tid) with
  | none => .ok ((false, "Tournament " ++ toString tid ++ " not found"), s)
  | some t =>
    if t.status ≠ "In Progress" ∧ t.status ≠ "Completed" then
      .ok ((false, "Tournament status is " ++ t.status ++
        ". Cannot record results."), s)
    else if sameIdSet (registeredIdsOf s tid) (providedIdsOf results_dict) then
      if (results_dict.map (·.2)).eraseDups.length ≠
          (results_dict.map (·.2)).length then
        .ok ((false,
          "Duplicate placements found. Each fencer must have a unique placement."), s)
      else
        match recordLoop t.competition_type tid (registeredResultsOf s tid)
            results_dict s with
        | .error e => .error e
        | .ok s1 =>
          .ok ((true, "Results recorded successfully. " ++
              toString results_dict.length ++ " fencers updated."),
            { s1 with tournaments :=
                (updateFirst (fun tt => tt.tournament_id == tid)
                  (fun tt => { tt with status := "Completed" })
                  s1.tournaments) })
    else
      .ok ((false, mismatchMsg (missingIds s tid results_dict)
        (extraIds s tid results_dict)), s)

/-- **C4.** With the tournament looked up, `record_results` fails with
the state completely untouched — no result, ranking or tournament row
modified — whenever (a) the status is neither `In Progress` nor
`Completed` (with the status message), (b) the provided fencer-id set
differs from the registered fencer-id set (with the message naming the
specific missing/extra ids), or (c) the status and registrant checks
pass but two placement values coincide (rejecting the whole batch); and
under any of (a), (b), (c) the call returns a failure with `s`
unchanged. -/
theorem record_results_validation (tid : Nat) (results_dict : List (Nat × Int))
    (s : DBState) (t : Tournament)
    (hfind : s.tournaments.find? (fun tt => tt.tournament_id == tid) = some t) :
    (t.status ≠ "In Progress" ∧ t.status ≠ "Completed" →
      record_tournament_results tid results_dict s =
        .ok ((false, "Tournament status is " ++ t.status ++
          ". Cannot record results."), s)) ∧
    ((t.status = "In Progress" ∨ t.status = "Completed") →
      sameIdSet (registeredIdsOf s tid) (providedIdsOf results_dict) = false →
      record_tournament_results tid results_dict s =
        .ok ((false, mismatchMsg (missingIds s tid results_dict)
          (extraIds s tid results_dict)), s)) ∧
    ((t.status = "In Progress" ∨ t.status = "Completed") →
      sameIdSet (registeredIdsOf s tid) (providedIdsOf results_dict) = true →
      (results_dict.map (·.2)).eraseDups.length ≠
        (results_dict.map (·.2)).length →
      record_tournament_results tid results_dict s =
        .ok ((false,
          "Duplicate placements found. Each fencer must have a unique placement."),
          s)) ∧
    ((t.status ≠ "In Progress" ∧ t.status ≠ "Completed") ∨
      sameIdSet (registeredIdsOf s tid) (providedIdsOf results_dict) = false ∨
      (results_dict.map (·.2)).eraseDups.length ≠
        (results_dict.map (·.2)).length →
      ∃ msg, record_tournament_results tid results_dict s =
        .ok ((false, msg), s)) := by
  have pA : t.status ≠ "In Progress" ∧ t.status ≠ "Completed" →
      record_tournament_results tid results_dict s =
        .ok ((false, "Tournament status is " ++ t.status ++
          ". Cannot record results."), s) := by
    intro h
    simp only [record_tournament_results, hfind]
    rw [if_pos h]
  have pB : (t.status = "In Progress" ∨ t.status = "Completed") →
      sameIdSet (registeredIdsOf s tid) (providedIdsOf results_dict) = false →
      record_tournament_results tid results_dict s =
        .ok ((false, mismatchMsg (missingIds s tid results_dict)
          (extraIds s tid results_dict)), s) := by
    intro hok hmis
    simp only [record_tournament_results, hfind]
    split_ifs <;> first
      | rfl
      | (rcases hok with h | h <;> simp_all)
  have pC : (t.status = "In Progress" ∨ t.status = "Completed") →
      sameIdSet (registeredIdsOf s tid) (providedIdsOf results_dict) = true →
      (results_dict.map (·.2)).eraseDups.length ≠
        (results_dict.map (·.2)).length →
      record_tournament_results tid results_dict s =
        .ok ((false,
          "Duplicate placements found. Each fencer must have a unique placement."),
          s) := by
    intro hok hset hdup
    simp only [record_tournament_results, hfind]
    split_ifs <;> first
      | rfl
      | (rcases hok with h | h <;> simp_all)
  refine ⟨pA, pB, pC, ?_⟩
  rintro (h | h | h)
  · exact ⟨_, pA h⟩
  · by_cases hs : t.status ≠ "In Progress" ∧ t.status ≠ "Completed"
    · exact ⟨_, pA hs⟩
    · have hok : t.status = "In Progress" ∨ t.status = "Completed" := by
        by_contra hc
        push_neg at hc
        exact hs hc
      exact ⟨_, pB hok h⟩
  · by_cases hs : t.status ≠ "In Progress" ∧ t.status ≠ "Completed"
    · exact ⟨_, pA hs⟩
    · have hok : t.status = "In Progress" ∨ t.status = "Completed" := by
        by_contra hc
        push_neg at hc
        exact hs hc
      rcases Bool.eq_false_or_eq_true
          (sameIdSet (registeredIdsOf s tid) (providedIdsOf results_dict)) with
        hf | ht
      · exact ⟨_, pC hok hf h⟩
      · exact ⟨_, pB hok ht⟩

/-- Two tournaments — id 1 `In Progress` with registered fencers 1 and 2,
id 2 `Upcoming` — used to exercise the three validation failures. -/
def sC4 : DBState :=
  { fencers := [⟨1, "Sabre", "M", ⟨2000, 1, 1⟩⟩, ⟨2, "Sabre", "M", ⟨2001, 1, 1⟩⟩],
    tournaments := [⟨1, "Senior", "Sabre", none, "Championship", "In Progress",
      none, ⟨2025, 3, 1⟩⟩,
      ⟨2, "Senior", "Sabre", none, "Regional", "Upcoming", none, ⟨2025, 4, 1⟩⟩],
    results := [⟨1, 1, 0, 0⟩, ⟨1, 2, 0, 0⟩],
    rankings := [⟨1, "Senior", 0, 0⟩, ⟨2, "Senior", 0, 0⟩] }

/-- Witness for C4: on `sC4`, recording on the `Upcoming` tournament
fails with the status message, a placements mapping over fencer 3 fails
naming the missing ids 1, 2 and the extra id 3, and a duplicate pair of
placements fails the whole batch — each time with the state returned
untouched. -/
theorem record_results_validation_witness :
    (record_tournament_results 2 [] sC4 =
      .ok ((false, "Tournament status is " ++ "Upcoming" ++
        ". Cannot record results."), sC4)) ∧
    (record_tournament_results 1 [(3, 1)] sC4 =
      .ok ((false, mismatchMsg (missingIds sC4 1 [(3, 1)])
        (extraIds sC4 1 [(3, 1)])), sC4)) ∧
    (record_tournament_results 1 [(1, 1), (2, 1)] sC4 =
      .ok ((false,
        "Duplicate placements found. Each fencer must have a unique placement."),
        sC4)) := by
  refine ⟨?_, ?_, ?_⟩
  · exact (record_results_validation 2 [] sC4
      ⟨2, "Senior", "Sabre", none, "Regional", "Upcoming", none, ⟨2025, 4, 1⟩⟩
      (by decide)).1 (by decide)
  · exact (record_results_validation 1 [(3, 1)] sC4
      ⟨1, "Senior", "Sabre", none, "Championship", "In Progress", none,
        ⟨2025, 3, 1⟩⟩ (by decide)).2.1 (by decide) (by decide)
  · exact (record_results_validation 1 [(1, 1), (2, 1)] sC4
      ⟨1, "Senior", "Sabre", none, "Championship", "In Progress", none,
        ⟨2025, 3, 1⟩⟩ (by decide)).2.2.1 (by decide) (by decide) (by decide)

/-- One fencer (id 1) whose stored Ranking row says `Junior` while the
tournament being scored is a `Senior` Championship. -/
def sC3x : DBState :=
  { fencers := [⟨1, "Sabre", "M", ⟨1990, 1, 1⟩⟩],
    tournaments := [⟨1, "Senior", "Sabre", none, "Championship", "In Progress",
      none, ⟨2025, 3, 1⟩⟩],
    results := [⟨1, 1, 0, 0⟩],
    rankings := [⟨1, "Junior", 0, 0⟩] }

/-- **C3, counterexample.** Two failures of the claim.  First, it says
`record_results` credits the points to the fencer's Ranking row for the
bracket matching the tournament's bracket (creating it via
`ensure_ranking` when absent) and increments that ranking's
`tournaments_attended` by 1: on `sC3x` the tournament's bracket is
`Senior` but the fencer's only (stale) ranking row says `Junior`, and
the code credits the 200 Championship points to that first ranking row
regardless of its bracket, creates no `Senior` row, and leaves
`tournaments_attended` at 0.  Second, the claim's concrete deltas are
wrong for the code's own points table: on a Championship tournament
(multiplier 2.0) placement 2 earns round(75×2.0) = 150, not +100, and
placement 3 earns round(50×2.0) = 100, not +50. -/
theorem record_results_claim_counterexample :
    (record_tournament_results 1 [(1, 1)] sC3x =
      .ok ((true, "Results recorded successfully. 1 fencers updated."),
        { fencers := [⟨1, "Sabre", "M", ⟨1990, 1, 1⟩⟩],
          tournaments := [⟨1, "Senior", "Sabre", none, "Championship",
            "Completed", none, ⟨2025, 3, 1⟩⟩],
          results := [⟨1, 1, 1, 200⟩],
          rankings := [⟨1, "Junior", 200, 0⟩] }) ∧
      ∀ r ∈ [(⟨1, "Junior", 200, 0⟩ : Ranking)], r.bracket_name ≠ "Senior") ∧
    calculate_points 2 "Championship" = .ok 150 ∧
    calculate_points 3 "Championship" = .ok 100 := by
  decide

/-- A Championship tournament `In Progress` with three registered
fencers (ids 1, 2, 3) whose stored rankings carry arbitrary bracket
names, point totals and attendance counts. -/
def recordScenario (ba bb bc : String) (pa pb pc ta tb tc : Int) : DBState :=
  { fencers := [⟨1, "Sabre", "M", ⟨2000, 1, 1⟩⟩, ⟨2, "Sabre", "M", ⟨2001, 1, 1⟩⟩,
      ⟨3, "Sabre", "F", ⟨2002, 1, 1⟩⟩],
    tournaments := [⟨1, "Senior", "Sabre", none, "Championship", "In Progress",
      none, ⟨2025, 3, 1⟩⟩],
    results := [⟨1, 1, 0, 0⟩, ⟨1, 2, 0, 0⟩, ⟨1, 3, 0, 0⟩],
    rankings := [⟨1, ba, pa, ta⟩, ⟨2, bb, pb, tb⟩, ⟨3, bc, pc, tc⟩] }

/-- A registered fencer with no Ranking row at all. -/
def recordScenarioNoRanking : DBState :=
  { fencers := [⟨4, "Foil", "M", ⟨1999, 1, 1⟩⟩],
    tournaments := [⟨7, "Junior", "Foil", none, "Championship", "In Progress",
      none, ⟨2025, 4, 1⟩⟩],
    results := [⟨7, 4, 0, 0⟩],
    rankings := [] }

lemma eraseDups_loop_mem {α} [BEq α] [LawfulBEq α] (a : α) :
    ∀ (l acc : List α), a ∈ List.eraseDups.loop l acc ↔ a ∈ l ∨ a ∈ acc := by
  intro l
  induction l with
  | nil =>
    intro acc
    simp [List.eraseDups.loop]
  | cons hd tl ih =>
    intro acc
    rw [List.eraseDups.loop]
    cases helem : acc.elem hd with
    | true =>
      have hmem : hd ∈ acc := List.elem_iff.mp helem
      rw [ih]
      simp only [List.mem_cons]
      constructor
      · rintro (h | h)
        · exact Or.inl (Or.inr h)
        · exact Or.inr h
      · rintro ((rfl | h) | h)
        · exact Or.inr hmem
        · exact Or.inl h
        · exact Or.inr h
    | false =>
      rw [ih]
      simp only [List.mem_cons]
      tauto

lemma mem_eraseDups {α} [BEq α] [LawfulBEq α] (a : α) (l : List α) :
    a ∈ l.eraseDups ↔ a ∈ l := by
  unfold List.eraseDups
  rw [eraseDups_loop_mem]
  simp

/-- When a valid batch passed the registrant-set check, every dict key
has a result row in the `registered_results` snapshot, so the loop's
`next(...)` lookup never yields `None`. -/
lemma registered_find_isSome (s : DBState) (tid : Nat)
    (results_dict : List (Nat × Int))
    (hset : sameIdSet (registeredIdsOf s tid) (providedIdsOf results_dict)
      = true) :
    ∀ fp ∈ results_dict,
      ((registeredResultsOf s tid).find?
        (fun r => r.fencer_id == fp.1)).isSome := by
  intro fp hfp
  have hsub : (providedIdsOf results_dict).all
      (fun x => (registeredIdsOf s tid).contains x) = true :=
    ((Bool.and_eq_true _ _).mp hset).2
  rw [List.all_eq_true] at hsub
  have h1 : fp.1 ∈ providedIdsOf results_dict := by
    rw [providedIdsOf, mem_eraseDups]
    exact List.mem_map.mpr ⟨fp, hfp, rfl⟩
  have h2 : fp.1 ∈ registeredIdsOf s tid := by
    have hc := hsub fp.1 h1
    unfold List.contains at hc
    exact List.elem_iff.mp hc
  rw [registeredIdsOf, mem_eraseDups] at h2
  obtain ⟨r, hr, hrid⟩ := List.mem_map.mp h2
  rw [List.find?_isSome]
  exact ⟨r, hr, by simp [hrid]⟩

/-- One entry of a valid placements batch, as the amended claim words
the per-fencer effect: write the placement and
`points_for(placement, tier)` into the fencer's result row for this
tournament, and add those points to the fencer's first stored Ranking
row — whatever bracket it names — when the fencer exists and has one;
no Ranking row is created and `tournaments_attended` is not touched. -/
def applyPlacement (ct : String) (tid fid : Nat) (placement : Int)
    (s : DBState) : DBState :=
  let points := pyRoundHalf (get_base_points placement * specMultiplier2 ct)
  let s1 : DBState := { s with results :=
      (updateFirst
        (fun r => r.tournament_id == tid && r.fencer_id == fid)
        (fun r => { r with placement := placement, points_awarded := points })
        s.results) }
  match s1.fencers.find? (fun f => f.fencer_id == fid) with
  | none => s1
  | some _ =>
    if (s1.rankings.filter (fun r => r.fencer_id == fid)).isEmpty then s1
    else { s1 with rankings :=
        (updateFirst (fun r => r.fencer_id == fid)
          (fun r => { r with points := r.points + points }) s1.rankings) }

/-- A whole valid placements batch, applied entry by entry in dict
order. -/
def applyPlacements (ct : String) (tid : Nat) (results_dict : List (Nat × Int))
    (s : DBState) : DBState :=
  results_dict.foldl (fun acc fp => applyPlacement ct tid fp.1 fp.2 acc) s

lemma updateFirst_map_eq {α β} (p : α → Bool) (f : α → α) (g : α → β)
    (h : ∀ x, g (f x) = g x) :
    ∀ l : List α, (updateFirst p f l).map g = l.map g := by
  intro l
  induction l with
  | nil => rfl
  | cons hd tl ih =>
    by_cases hp : p hd
    · simp [updateFirst, hp, h]
    · simp [updateFirst, hp, ih]

lemma applyPlacement_rankings_key (ct : String) (tid fid : Nat)
    (placement : Int) (s : DBState) :
    (applyPlacement ct tid fid placement s).rankings.map
      (fun r => (r.fencer_id, r.bracket_name, r.tournaments_attended)) =
    s.rankings.map
      (fun r => (r.fencer_id, r.bracket_name, r.tournaments_attended)) := by
  unfold applyPlacement
  dsimp only
  cases hfind2 : List.find? (fun f => f.fencer_id == fid) s.fencers with
  | none => rfl
  | some f =>
    by_cases he :
        (List.filter (fun r => r.fencer_id == fid) s.rankings).isEmpty = true
    · rw [if_pos he]
    · rw [if_neg he]
      exact updateFirst_map_eq (fun r => r.fencer_id == fid)
        (fun r => { r with points :=
          r.points + pyRoundHalf (get_base_points placement * specMultiplier2 ct) })
        (fun r => (r.fencer_id, r.bracket_name, r.tournaments_attended))
        (fun r => rfl) s.rankings

lemma applyPlacements_rankings_key (ct : String) (tid : Nat)
    (results_dict : List (Nat × Int)) (s : DBState) :
    (applyPlacements ct tid results_dict s).rankings.map
      (fun r => (r.fencer_id, r.bracket_name, r.tournaments_attended)) =
    s.rankings.map
      (fun r => (r.fencer_id, r.bracket_name, r.tournaments_attended)) := by
  induction results_dict generalizing s with
  | nil => rfl
  | cons hd tl ih =>
    have hstep : applyPlacements ct tid (hd :: tl) s =
        applyPlacements ct tid tl (applyPlacement ct tid hd.1 hd.2 s) := rfl
    rw [hstep, ih, applyPlacement_rankings_key]

/-- With a known tier and every dict key present among the registered
result rows, the recording loop raises nothing, skips nothing, and
computes exactly the batch update `applyPlacements`. -/
lemma recordLoop_eq_applyPlacements (ct : String) (ht : ct ∈ KNOWN_TIERS)
    (tid : Nat) (registered : List TournamentResult) :
    ∀ (results_dict : List (Nat × Int)) (s : DBState),
      (∀ fp ∈ results_dict,
        (registered.find? (fun r => r.fencer_id == fp.1)).isSome) →
      recordLoop ct tid registered results_dict s =
        .ok (applyPlacements ct tid results_dict s) := by
  intro results_dict
  induction results_dict with
  | nil =>
    intro s _
    rfl
  | cons hd tl ih =>
    intro s hall
    obtain ⟨fid, placement⟩ := hd
    obtain ⟨r, hr⟩ := Option.isSome_iff_exists.mp
      (hall (fid, placement) (List.mem_cons_self _ _))
    rw [recordLoop, hr, calculate_points_known placement ct ht]
    show recordLoop ct tid registered tl (applyPlacement ct tid fid placement s) =
      .ok (applyPlacements ct tid ((fid, placement) :: tl) s)
    rw [show applyPlacements ct tid ((fid, placement) :: tl) s =
      applyPlacements ct tid tl (applyPlacement ct tid fid placement s) from rfl]
    exact ih _ (fun fp hfp => hall fp (List.mem_cons_of_mem _ hfp))

/-- **C3, amended.** For every tournament whose status is `In Progress`
or `Completed` (with a known tier) and every valid placements batch —
the provided fencer-id set equals the registered set and the placements
are mutually distinct — `record_results` succeeds, producing exactly the
batch update `applyPlacements` with the tournament's status then set to
`Completed`: each registered fencer's TournamentResult row gets the
given placement with `points_for(placement, tier)`, and the points are
added to that fencer's first stored Ranking row regardless of its
bracket (none is created, and nothing is credited, when the fencer has
no ranking).  Moreover the batch update never changes any ranking's
fencer, bracket or `tournaments_attended` — attendance is not
incremented.  In particular placements {A:1, B:2, C:3} on a Championship
tournament add +200, +150 and +100 points (bases 100, 75, 50 times the
2.0 multiplier), and a fencer with no ranking row gets their result
written with no ranking credited. -/
theorem record_results_valid_batch (tid : Nat)
    (results_dict : List (Nat × Int)) (s : DBState) (t : Tournament)
    (hfind : s.tournaments.find? (fun tt => tt.tournament_id == tid) = some t)
    (hstatus : t.status = "In Progress" ∨ t.status = "Completed")
    (hset : sameIdSet (registeredIdsOf s tid) (providedIdsOf results_dict)
      = true)
    (hdup : (results_dict.map (·.2)).eraseDups.length =
      (results_dict.map (·.2)).length)
    (htier : t.competition_type ∈ KNOWN_TIERS) :
    (record_tournament_results tid results_dict s =
      .ok ((true, "Results recorded successfully. " ++
          toString results_dict.length ++ " fencers updated."),
        { applyPlacements t.competition_type tid results_dict s with
            tournaments := (updateFirst (fun tt => tt.tournament_id == tid)
              (fun tt => { tt with status := "Completed" })
              (applyPlacements t.competition_type tid results_dict s).tournaments) })) ∧
    (∀ (ct : String) (tid2 : Nat) (dict2 : List (Nat × Int)) (s2 : DBState),
      (applyPlacements ct tid2 dict2 s2).rankings.map
        (fun r => (r.fencer_id, r.bracket_name, r.tournaments_attended)) =
      s2.rankings.map
        (fun r => (r.fencer_id, r.bracket_name, r.tournaments_attended))) ∧
    (∀ (ba bb bc : String) (pa pb pc ta tb tc : Int),
      record_tournament_results 1 [(1, 1), (2, 2), (3, 3)]
        (recordScenario ba bb bc pa pb pc ta tb tc) =
      .ok ((true, "Results recorded successfully. 3 fencers updated."),
        { fencers := [⟨1, "Sabre", "M", ⟨2000, 1, 1⟩⟩,
            ⟨2, "Sabre", "M", ⟨2001, 1, 1⟩⟩, ⟨3, "Sabre", "F", ⟨2002, 1, 1⟩⟩],
          tournaments := [⟨1, "Senior", "Sabre", none, "Championship",
            "Completed", none, ⟨2025, 3, 1⟩⟩],
          results := [⟨1, 1, 1, 200⟩, ⟨1, 2, 2, 150⟩, ⟨1, 3, 3, 100⟩],
          rankings := [⟨1, ba, pa + 200, ta⟩, ⟨2, bb, pb + 150, tb⟩,
            ⟨3, bc, pc + 100, tc⟩] })) ∧
    (record_tournament_results 7 [(4, 1)] recordScenarioNoRanking =
      .ok ((true, "Results recorded successfully. 1 fencers updated."),
        { fencers := [⟨4, "Foil", "M", ⟨1999, 1, 1⟩⟩],
          tournaments := [⟨7, "Junior", "Foil", none, "Championship",
            "Completed", none, ⟨2025, 4, 1⟩⟩],
          results := [⟨7, 4, 1, 200⟩],
          rankings := [] })) := by
  refine ⟨?_, applyPlacements_rankings_key, fun ba bb bc pa pb pc ta tb tc => rfl,
    rfl⟩
  have hs : ¬ (t.status ≠ "In Progress" ∧ t.status ≠ "Completed") := by
    rcases hstatus with h | h <;> simp [h]
  have hd : ¬ ((results_dict.map (·.2)).eraseDups.length ≠
      (results_dict.map (·.2)).length) := by
    simp [hdup]
  have hall := registered_find_isSome s tid results_dict hset
  simp only [record_tournament_results, hfind]
  rw [if_neg hs, if_pos hset, if_neg hd,
    recordLoop_eq_applyPlacements t.competition_type htier tid
      (registeredResultsOf s tid) results_dict s hall]

/-- Witness for the amended C3: the claim's Championship scenario, run
through the universal theorem — tournament 1 is `In Progress` with tier
`Championship`, fencers 1, 2, 3 are exactly the registered set, and the
placements 1, 2, 3 are distinct. -/
theorem record_results_valid_batch_witness :
    record_tournament_results 1 [(1, 1), (2, 2), (3, 3)]
        (recordScenario "Senior" "Junior" "Cadet" 0 0 0 0 0 0) =
      .ok ((true, "Results recorded successfully. " ++
          toString ([(1, 1), (2, 2), (3, 3)] : List (Nat × Int)).length ++
          " fencers updated."),
        { applyPlacements "Championship" 1 [(1, 1), (2, 2), (3, 3)]
            (recordScenario "Senior" "Junior" "Cadet" 0 0 0 0 0 0) with
            tournaments := (updateFirst (fun tt => tt.tournament_id == 1)
              (fun tt => { tt with status := "Completed" })
              (applyPlacements "Championship" 1 [(1, 1), (2, 2), (3, 3)]
                (recordScenario "Senior" "Junior" "Cadet" 0 0 0 0 0 0)).tournaments) }) :=
  (record_results_valid_batch 1 [(1, 1), (2, 2), (3, 3)]
    (recordScenario "Senior" "Junior" "Cadet" 0 0 0 0 0 0)
    ⟨1, "Senior", "Sabre", none, "Championship", "In Progress", none,
      ⟨2025, 3, 1⟩⟩
    (by decide) (Or.inl rfl) (by decide) (by decide) (by decide)).1

/-! ## Eligibility filter (`Tournament.is_eligible_fencer`,
`backend/src/models.py`) -/

/-- `Tournament.is_full`: never full without a `max_participants` limit,
else full when the registered-result count reaches it. -/
def is_full (t : Tournament) (tresults : List TournamentResult) : Bool :=
  match t.max_participants with
  | none => false
  | some m => tresults.length ≥ m

/-- `Tournament.is_eligible_fencer` from `backend/src/models.py`.
`tresults` is the tournament's `results` collection (for the capacity
check) and `frankings` is `fencer.rankings`; the bracket check reads
`fencer.rankings[0].bracket_name` — the stored row, not the date of
birth. -/
def is_eligible_fencer (t : Tournament) (tresults : List TournamentResult)
    (f : Fencer) (frankings : List Ranking) : Bool × String :=
  if f.weapon ≠ t.weapon then
    (false, "Fencer uses " ++ f.weapon ++ ", tournament is " ++ t.weapon)
  else
    match frankings with
    | [] => (false, "Fencer has no ranking/bracket assignment")
    | r0 :: _ =>
      if r0.bracket_name ≠ t.bracket then
        (false, "Fencer is in " ++ r0.bracket_name ++
          " bracket, tournament is " ++ t.bracket)
      else
        let tail :=
          if is_full t tresults then (false, "Tournament is full")
          else if t.status ≠ "Upcoming" ∧ t.status ≠ "Registration Open" then
            (false, "Tournament status is " ++ t.status ++ ", cannot register")
          else (true, "Eligible")
        match t.gender with
        | some g =>
          if f.gender ≠ g then
            (false, "Fencer gender (" ++ f.gender ++
              ") doesn\x27t match tournament (" ++ g ++ ")")
          else tail
        | none => tail

/-- The eligibility procedure exactly as claim C8 words it: the same
ordered checks, but with the fencer's bracket derived from their date of
birth at evaluation time (`eligible_brackets (calculate_age dob refDate)`)
instead of the stored ranking row. -/
def claimIsEligible (t : Tournament) (tresults : List TournamentResult)
    (f : Fencer) (refDate : PyDate) : Bool × String :=
  if f.weapon ≠ t.weapon then
    (false, "Fencer uses " ++ f.weapon ++ ", tournament is " ++ t.weapon)
  else if (eligible_brackets (calculate_age f.dob refDate)).head? ≠
      some t.bracket then
    (false, "Fencer is in a different bracket, tournament is " ++ t.bracket)
  else
    let tail :=
      if is_full t tresults then (false, "Tournament is full")
      else if t.status ≠ "Upcoming" ∧ t.status ≠ "Registration Open" then
        (false, "Tournament status is " ++ t.status ++ ", cannot register")
      else (true, "Eligible")
    match t.gender with
    | some g =>
      if f.gender ≠ g then
        (false, "Fencer gender (" ++ f.gender ++
          ") doesn\x27t match tournament (" ++ g ++ ")")
      else tail
    | none => tail

/-- **C8, counterexample.** The claim says the bracket check derives the
fencer's current bracket from their date of birth at evaluation time,
not from a cached value.  For a fencer born 1990 (age 35 in mid-2025,
hence `Senior` by date of birth) whose stored ranking row still says
`Junior`, the claim's procedure accepts them for a `Senior` tournament,
but the code — which reads `fencer.rankings[0].bracket_name` — rejects
them. -/
theorem is_eligible_claim_counterexample :
    (is_eligible_fencer
      ⟨1, "Senior", "Sabre", none, "Regional", "Upcoming", none, ⟨2025, 6, 1⟩⟩
      [] ⟨1, "Sabre", "M", ⟨1990, 1, 1⟩⟩ [⟨1, "Junior", 0, 0⟩]).1 = false ∧
    (claimIsEligible
      ⟨1, "Senior", "Sabre", none, "Regional", "Upcoming", none, ⟨2025, 6, 1⟩⟩
      [] ⟨1, "Sabre", "M", ⟨1990, 1, 1⟩⟩ ⟨2025, 6, 1⟩).1 = true ∧
    eligible_brackets
      (calculate_age (⟨1990, 1, 1⟩ : PyDate) ⟨2025, 6, 1⟩) = ["Senior"] := by
  decide

/-- **C8, amended.** `is_eligible` performs exactly these checks in
order, short-circuiting with a reason string for the first failing
check: (1) fencer.weapon equals tournament.weapon; (2) the fencer's
bracket *as stored on their first Ranking row* equals tournament.bracket
— a fencer with no ranking row at all is rejected with a no-ranking
reason; (3) tournament gender is unset or equals the fencer's gender;
(4) the tournament is not at `max_participants` capacity (unlimited when
unset); (5) tournament status is `Upcoming` or `Registration Open`; a
weapon mismatch is rejected first, with a reason naming both weapons. -/
theorem is_eligible_fencer_checks (t : Tournament)
    (tres : List TournamentResult) (f : Fencer) (frk : List Ranking) :
    (f.weapon ≠ t.weapon →
      is_eligible_fencer t tres f frk =
        (false, "Fencer uses " ++ f.weapon ++ ", tournament is " ++ t.weapon)) ∧
    (f.weapon = t.weapon → frk = [] →
      is_eligible_fencer t tres f frk =
        (false, "Fencer has no ranking/bracket assignment")) ∧
    (∀ r0 rest, f.weapon = t.weapon → frk = r0 :: rest →
      r0.bracket_name ≠ t.bracket →
      is_eligible_fencer t tres f frk =
        (false, "Fencer is in " ++ r0.bracket_name ++
          " bracket, tournament is " ++ t.bracket)) ∧
    (∀ r0 rest g, f.weapon = t.weapon → frk = r0 :: rest →
      r0.bracket_name = t.bracket → t.gender = some g → f.gender ≠ g →
      is_eligible_fencer t tres f frk =
        (false, "Fencer gender (" ++ f.gender ++
          ") doesn\x27t match tournament (" ++ g ++ ")")) ∧
    (∀ r0 rest, f.weapon = t.weapon → frk = r0 :: rest →
      r0.bracket_name = t.bracket →
      (t.gender = none ∨ t.gender = some f.gender) →
      is_full t tres = true →
      is_eligible_fencer t tres f frk = (false, "Tournament is full")) ∧
    (∀ r0 rest, f.weapon = t.weapon → frk = r0 :: rest →
      r0.bracket_name = t.bracket →
      (t.gender = none ∨ t.gender = some f.gender) →
      is_full t tres = false →
      t.status ≠ "Upcoming" ∧ t.status ≠ "Registration Open" →
      is_eligible_fencer t tres f frk =
        (false, "Tournament status is " ++ t.status ++ ", cannot register")) ∧
    (∀ r0 rest, f.weapon = t.weapon → frk = r0 :: rest →
      r0.bracket_name = t.bracket →
      (t.gender = none ∨ t.gender = some f.gender) →
      is_full t tres = false →
      (t.status = "Upcoming" ∨ t.status = "Registration Open") →
      is_eligible_fencer t tres f frk = (true, "Eligible")) := by
  refine ⟨?_, ?_, ?_, ?_, ?_, ?_, ?_⟩
  · intro h
    simp only [is_eligible_fencer]
    rw [if_pos h]
  · intro hw hfrk
    subst hfrk
    simp only [is_eligible_fencer, hw]
    simp
  · intro r0 rest hw hfrk hbr
    subst hfrk
    simp only [is_eligible_fencer, hw]
    simp [hbr]
  · intro r0 rest g hw hfrk hbr hg hgen
    subst hfrk
    simp only [is_eligible_fencer, hw, hg]
    simp [hbr, hgen]
  · intro r0 rest hw hfrk hbr hgen hfull
    subst hfrk
    rcases hgen with hg | hg <;>
      simp [is_eligible_fencer, hw, hg, hbr, hfull]
  · intro r0 rest hw hfrk hbr hgen hfull hst
    subst hfrk
    rcases hgen with hg | hg <;>
      simp [is_eligible_fencer, hw, hg, hbr, hfull, hst]
  · intro r0 rest hw hfrk hbr hgen hfull hst
    subst hfrk
    rcases hgen with hg | hg <;> rcases hst with hs | hs <;>
      simp [is_eligible_fencer, hw, hg, hbr, hfull, hs]

/-- Witness for the amended C8: a Foil fencer is rejected for a Sabre
tournament with a reason naming both weapons, regardless of every other
field. -/
theorem is_eligible_fencer_checks_witness :
    is_eligible_fencer
      ⟨1, "Senior", "Sabre", none, "Regional", "Upcoming", none, ⟨2025, 6, 1⟩⟩
      [] ⟨1, "Foil", "M", ⟨1990, 1, 1⟩⟩ [⟨1, "Senior", 0, 0⟩] =
      (false, "Fencer uses " ++ "Foil" ++ ", tournament is " ++ "Sabre") :=
  (is_eligible_fencer_checks
    ⟨1, "Senior", "Sabre", none, "Regional", "Upcoming", none, ⟨2025, 6, 1⟩⟩
    [] ⟨1, "Foil", "M", ⟨1990, 1, 1⟩⟩ [⟨1, "Senior", 0, 0⟩]).1 (by decide)

/-! ## Season simulator (`backend/src/season_simulation.py`)

`register_eligible_fencers` and the per-tournament step of
`simulate_full_season`.  The Python floats (participation rates, the
`random.uniform(-0.15, 0.15)` variance draw, the fill-rate arithmetic)
are embedded as `ℚ`; the variance draw `u` is a parameter, and
`random.sample`, which returns exactly `num_to_register` distinct
fencers, is abstracted to the registered count. -/

/-- The `participation_rate` dict of `register_eligible_fencers`:
Local 0.5, Regional 0.65, National 0.75, Championship 0.85,
International 0.95. -/
def participation_rate : List (String × ℚ) :=
  [("Local", 1/2), ("Regional", 13/20), ("National", 3/4),
   ("Championship", 17/20), ("International", 19/20)]

/-- Python `int()` on the non-negative rationals this module feeds it:
truncation toward zero, i.e. the floor, clamped into `Nat`. -/
def pyIntNat (q : ℚ) : Nat := (⌊q⌋).toNat

/-- `actual_rate`: the base rate for the competition type (`dict.get`
with default 0.6), plus the variance draw, clamped into
`[min_fill_rate, 1.0]`. -/
def actual_rate (competition_type : String) (min_fill_rate u : ℚ) : ℚ :=
  max min_fill_rate
    (min 1 (((participation_rate.lookup competition_type).getD (3/5)) + u))

/-- `num_to_register` after its three reassignments: the pool times the
actual rate, raised to at least `int(max_participants * min_fill_rate)`
and capped at `max_participants` when a (truthy) limit is set, then
capped at the pool size. -/
def num_to_register (eligibleCount : Nat) (competition_type : String)
    (max_participants : Option Nat) (min_fill_rate u : ℚ) : Nat :=
  min
    (match max_participants with
     | some m =>
       if m ≠ 0 then
         max (pyIntNat ((m : ℚ) * min_fill_rate))
           (min (pyIntNat ((eligibleCount : ℚ) *
             actual_rate competition_type min_fill_rate u)) m)
       else pyIntNat ((eligibleCount : ℚ) *
         actual_rate competition_type min_fill_rate u)
     | none => pyIntNat ((eligibleCount : ℚ) *
         actual_rate competition_type min_fill_rate u))
    eligibleCount

/-- `register_eligible_fencers` (as the size of the returned sample):
an empty eligible pool returns no one, and when a truthy
`max_participants` is set and the computed number still falls short of
`int(max_participants * min_fill_rate)`, the function returns no one so
the tournament gets cancelled. -/
def register_eligible_fencers (eligibleCount : Nat) (competition_type : String)
    (max_participants : Option Nat) (min_fill_rate u : ℚ) : Nat :=
  if eligibleCount = 0 then 0
  else
    match max_participants with
    | some m =>
      if m ≠ 0 ∧ num_to_register eligibleCount competition_type (some m)
          min_fill_rate u < pyIntNat ((m : ℚ) * min_fill_rate) then 0
      else num_to_register eligibleCount competition_type (some m)
        min_fill_rate u
    | none => num_to_register eligibleCount competition_type none
        min_fill_rate u

/-- Outcome of one tournament in the `simulate_full_season` loop. -/
inductive SimOutcome where
  | cancelled
  | completed (registrants : Nat) (resultsCreated : Nat)
deriving DecidableEq

/-- One iteration of the tournament loop of `simulate_full_season`:
register; with no participants the tournament's status becomes
`Cancelled` and no results are created, otherwise
`simulate_tournament_results` creates exactly one result per
participant. -/
def simulate_tournament_step (eligibleCount : Nat) (competition_type : String)
    (max_participants : Option Nat) (min_fill_rate u : ℚ) : SimOutcome :=
  if register_eligible_fencers eligibleCount competition_type max_participants
      min_fill_rate u = 0
  then .cancelled
  else .completed
    (register_eligible_fencers eligibleCount competition_type max_participants
      min_fill_rate u)
    (register_eligible_fencers eligibleCount competition_type max_participants
      min_fill_rate u)

/-- A boundary remark: the cancel guard compares against
`int(max_participants * min_fill_rate)`, a truncation, so at a
hypothetical odd cap of 15 the simulator would complete a tournament
with 7 registrants — a 46.7% fill rate, under the 50% floor.  This
cannot happen to a *generated* tournament because
`generate_random_tournaments` only sets caps of 16, 32 or 64, all even. -/
lemma register_floor_truncation_remark :
    simulate_tournament_step 14 "Local" (some 15) (1/2) 0 = .completed 7 7 ∧
    ¬ ((1/2 : ℚ) * 15 ≤ (7 : ℚ)) := by
  have hlk : ((participation_rate.lookup "Local").getD (3/5)) = 1/2 := rfl
  have har : actual_rate "Local" (1/2) 0 = 1/2 := by
    rw [actual_rate, hlk]
    norm_num
  have hreg : register_eligible_fencers 14 "Local" (some 15) (1/2) 0 = 7 := by
    norm_num [register_eligible_fencers, num_to_register, har, pyIntNat]
    rfl
  constructor
  · norm_num [simulate_tournament_step, hreg]
  · norm_num

lemma pyIntNat_mul_le (m : Nat) (mfr : ℚ) (h1 : mfr ≤ 1) :
    pyIntNat ((m : ℚ) * mfr) ≤ m := by
  have h2 : (m : ℚ) * mfr ≤ (m : ℚ) := mul_le_of_le_one_right (by positivity) h1
  have h3 : ⌊(m : ℚ) * mfr⌋ ≤ ⌊(m : ℚ)⌋ := Int.floor_le_floor h2
  have h4 : ⌊((m : Nat) : ℚ)⌋ = (m : Int) := Int.floor_natCast m
  unfold pyIntNat
  rw [Int.toNat_le]
  omega

lemma num_to_register_le (eligibleCount : Nat) (competition_type : String)
    (m : Nat) (min_fill_rate u : ℚ) (h1 : min_fill_rate ≤ 1) (hm : m ≠ 0) :
    num_to_register eligibleCount competition_type (some m) min_fill_rate u
      ≤ m := by
  unfold num_to_register
  refine le_trans (min_le_left _ _) ?_
  simp only [if_pos hm]
  exact max_le (pyIntNat_mul_le m min_fill_rate h1)
    (min_le_right _ _)

lemma register_eligible_fencers_bounds (eligibleCount : Nat)
    (competition_type : String) (m : Nat) (min_fill_rate u : ℚ)
    (h1 : min_fill_rate ≤ 1) (hm : m ≠ 0) :
    register_eligible_fencers eligibleCount competition_type (some m)
        min_fill_rate u = 0 ∨
    (pyIntNat ((m : ℚ) * min_fill_rate) ≤
        register_eligible_fencers eligibleCount competition_type (some m)
          min_fill_rate u ∧
      register_eligible_fencers eligibleCount competition_type (some m)
        min_fill_rate u ≤ m) := by
  unfold register_eligible_fencers
  by_cases hec : eligibleCount = 0
  · left
    rw [if_pos hec]
  · rw [if_neg hec]
    by_cases hg : m ≠ 0 ∧ num_to_register eligibleCount competition_type (some m)
        min_fill_rate u < pyIntNat ((m : ℚ) * min_fill_rate)
    · left
      simp only [if_pos hg]
    · right
      simp only [if_neg hg]
      have hfloor : ¬ (num_to_register eligibleCount competition_type (some m)
          min_fill_rate u < pyIntNat ((m : ℚ) * min_fill_rate)) := by
        intro hlt
        exact hg ⟨hm, hlt⟩
      exact ⟨Nat.le_of_not_lt hfloor,
        num_to_register_le eligibleCount competition_type m min_fill_rate u h1 hm⟩

/-- For every tournament with a (positive) `max_participants` limit and
a fill-rate floor of at most 1, the simulator either cancels the
tournament — creating no results — or registers `n` fencers with
`int(max_participants × min_fill_rate)` ≤ `n` ≤ `max_participants`. -/
lemma simulator_fill_floor (eligibleCount : Nat) (competition_type : String)
    (m : Nat) (min_fill_rate u : ℚ) (h1 : min_fill_rate ≤ 1) (hm : m ≠ 0) :
    simulate_tournament_step eligibleCount competition_type (some m)
        min_fill_rate u = .cancelled ∨
    ∃ n, simulate_tournament_step eligibleCount competition_type (some m)
        min_fill_rate u = .completed n n ∧
      pyIntNat ((m : ℚ) * min_fill_rate) ≤ n ∧ n ≤ m := by
  rcases register_eligible_fencers_bounds eligibleCount competition_type m
      min_fill_rate u h1 hm with h0 | ⟨hlo, hhi⟩
  · left
    simp only [simulate_tournament_step, h0, if_pos]
  · by_cases h0 : register_eligible_fencers eligibleCount competition_type
        (some m) min_fill_rate u = 0
    · left
      simp only [simulate_tournament_step, h0, if_pos]
    · right
      exact ⟨_, by simp only [simulate_tournament_step, if_neg h0], hlo, hhi⟩

lemma half_le_pyIntNat_half_of_even (m : Nat) (he : m % 2 = 0) :
    (1/2 : ℚ) * (m : ℚ) ≤ (pyIntNat ((m : ℚ) * (1/2)) : ℚ) := by
  obtain ⟨k, rfl⟩ : ∃ k, m = 2 * k := ⟨m / 2, by omega⟩
  have h1 : (((2 * k : Nat) : ℚ)) * (1/2) = (k : ℚ) := by
    push_cast
    ring
  rw [pyIntNat, h1, Int.floor_natCast, Int.toNat_natCast]
  push_cast
  linarith

/-- **C9.** `generate_random_tournaments` only ever sets
`max_participants` to 16, 32 or 64 (or leaves it unset), and
`simulate_full_season` registers with the default 50% fill-rate floor.
For every generated capped tournament — any eligible-pool size, any
competition tier, any variance draw — the simulator either cancels the
tournament, creating no results, or registers `n` fencers, each of whom
receives a result, with 0.5 × max_participants ≤ n ≤ max_participants
(those caps are even, so the code's `int()` floor equals the exact
product); in particular with max_participants = 16 a non-cancelled
tournament has between 8 and 16 registrants. -/
theorem simulator_generated_fill_rate (eligibleCount : Nat)
    (competition_type : String) (u : ℚ) (m : Nat)
    (hm : m = 16 ∨ m = 32 ∨ m = 64) :
    simulate_tournament_step eligibleCount competition_type (some m) (1/2) u
        = .cancelled ∨
    ∃ n, simulate_tournament_step eligibleCount competition_type (some m)
        (1/2) u = .completed n n ∧
      (1/2 : ℚ) * (m : ℚ) ≤ (n : ℚ) ∧ n ≤ m := by
  have hm0 : m ≠ 0 := by rcases hm with h | h | h <;> omega
  rcases simulator_fill_floor eligibleCount competition_type m (1/2) u
      (by norm_num) hm0 with h | ⟨n, hstep, hlo, hhi⟩
  · exact Or.inl h
  · refine Or.inr ⟨n, hstep, ?_, hhi⟩
    have he : m % 2 = 0 := by rcases hm with h | h | h <;> omega
    calc (1/2 : ℚ) * (m : ℚ) ≤ (pyIntNat ((m : ℚ) * (1/2)) : ℚ) :=
          half_le_pyIntNat_half_of_even m he
      _ ≤ (n : ℚ) := by exact_mod_cast hlo

/-- Witness for C9: the claim's (20 eligible, Regional, cap 16, 50%
floor) scenario — with the bounds 8 = 0.5 × 16 and 16. -/
theorem simulator_generated_fill_rate_witness :
    ((16 : Nat) = 16 ∨ (16 : Nat) = 32 ∨ (16 : Nat) = 64) ∧
    (simulate_tournament_step 20 "Regional" (some 16) (1/2) 0 = .cancelled ∨
     ∃ n, simulate_tournament_step 20 "Regional" (some 16) (1/2) 0 =
        .completed n n ∧
       (1/2 : ℚ) * ((16 : Nat) : ℚ) ≤ (n : ℚ) ∧ n ≤ 16) :=
  ⟨Or.inl rfl, simulator_generated_fill_rate 20 "Regional" 0 16 (Or.inl rfl)⟩

/-- The claim's scenario evaluated concretely: with 20 eligible fencers,
a Regional tournament capped at 16 and a zero variance draw, the
simulator registers 13 fencers — within the 8..16 band, since
`int(16 × 0.5) = 8`. -/
lemma simulator_scenario_20_16 :
    simulate_tournament_step 20 "Regional" (some 16) (1/2) 0 =
      .completed 13 13 ∧ pyIntNat ((16 : ℚ) * (1/2)) = 8 := by
  have hlk : ((participation_rate.lookup "Regional").getD (3/5)) = 13/20 := rfl
  have har : actual_rate "Regional" (1/2) 0 = 13/20 := by
    rw [actual_rate, hlk]
    norm_num
  have hreg : register_eligible_fencers 20 "Regional" (some 16) (1/2) 0 = 13 := by
    norm_num [register_eligible_fencers, num_to_register, har, pyIntNat]
    rfl
  constructor
  · norm_num [simulate_tournament_step, hreg]
  · norm_num [pyIntNat]
    rfl

end Allfence
